import Mathlib

/-!
Verification development for the TFMini-Plus + MPU6050 fusion sketch
(`src/main.cpp`).

The sketch runs one control loop: `readMPU6050()` advances the gyro
integration state, then the LiDAR section of `loop()` tries to decode one
9-byte TFMini frame from the serial byte stream and, on success and when
the decoded distance lies in (0, 1200), prints a `distance=…,yaw=…` line.

Shallow embedding choices:
* C `float` arithmetic is modelled over `ℚ` (exact rationals);
* `Serial1.read()` is modelled on a `List ℤ` of pending bytes, returning
  `-1` when the buffer is empty, exactly as Arduino's non-blocking `read`;
  the model also counts how many reads were issued against an empty buffer;
* the accelerometer-angle expression `atan(…)*180/PI` is transcendental,
  so it is abstracted as a function parameter `f : ℚ → ℚ → ℚ → ℚ × ℚ`
  (none of the gyro/LiDAR behaviour depends on its value, and every
  theorem below is universally quantified over it);
* the hardware sample sequences consumed by `Wire.read()` are passed as
  explicit input lists / tuples of raw register values.
-/

/-- Sentinel header byte of the TFMini frame protocol (`const int HEADER = 0x59`). -/
def HEADER : ℤ := 0x59

/-- One `Serial1.read()`: pop a byte if one is buffered, else return `-1`
(Arduino non-blocking read).  The third component records whether this read
hit an empty buffer (1) or not (0). -/
def serialReadByte : List ℤ → ℤ × List ℤ × ℕ
  | [] => (-1, [], 1)
  | b :: rest => (b, rest, 0)

/-- Result of one execution of the LiDAR section of `loop()`:
`accepted` is the validated 9-byte frame (`uart[0..8]`) when the header and
checksum tests pass, `emitted` is the printed record as key/value pairs,
`rest` is the serial buffer left over, `emptyReads` counts `Serial1.read()`
calls that were issued while the buffer was empty. -/
structure LidarStep where
  accepted : Option (List ℤ)
  emitted : Option (List (String × ℚ))
  rest : List ℤ
  emptyReads : ℕ

/-- The LiDAR section of `loop()` (`main.cpp` lines 64–87), for one loop
iteration.  `y` is the current value of the global `yaw`.  Mirrors the code:
`if (Serial1.available())`, first byte must equal `HEADER`, second byte must
equal `HEADER`, then seven further unconditional reads fill `uart[2..8]`;
`check` is the sum of `uart[0..7]`; on `uart[8] == (check & 0xff)` the frame
is accepted, `dist = uart[2] + uart[3]*256`, and a record is printed only
when `dist > 0 && dist < 1200`.  (`check & 0xff` on a C two's-complement
`int` equals `check % 256` with the nonnegative remainder, i.e. `Int.emod`.) -/
def loopLidar (y : ℚ) (stream : List ℤ) : LidarStep :=
  match stream with
  | [] => { accepted := none, emitted := none, rest := [], emptyReads := 0 }
  | b0 :: s1 =>
    if b0 = HEADER then
      let r1 := serialReadByte s1
      if r1.1 = HEADER then
        let r2 := serialReadByte r1.2.1
        let r3 := serialReadByte r2.2.1
        let r4 := serialReadByte r3.2.1
        let r5 := serialReadByte r4.2.1
        let r6 := serialReadByte r5.2.1
        let r7 := serialReadByte r6.2.1
        let r8 := serialReadByte r7.2.1
        let u2 := r2.1
        let u3 := r3.1
        let u4 := r4.1
        let u5 := r5.1
        let u6 := r6.1
        let u7 := r7.1
        let u8 := r8.1
        let check := HEADER + HEADER + u2 + u3 + u4 + u5 + u6 + u7
        let er := r1.2.2 + r2.2.2 + r3.2.2 + r4.2.2 + r5.2.2 + r6.2.2
                    + r7.2.2 + r8.2.2
        if u8 = check % 256 then
          let dist := u2 + u3 * 256
          { accepted := some [HEADER, HEADER, u2, u3, u4, u5, u6, u7, u8],
            emitted :=
              if 0 < dist ∧ dist < 1200 then
                some [("distance", (dist : ℚ)), ("yaw", y)]
              else none,
            rest := r8.2.1, emptyReads := er }
        else
          { accepted := none, emitted := none, rest := r8.2.1, emptyReads := er }
      else
        { accepted := none, emitted := none, rest := r1.2.1, emptyReads := r1.2.2 }
    else
      { accepted := none, emitted := none, rest := s1, emptyReads := 0 }

/-- A 9-byte frame is valid in the sense of the protocol: both header bytes
equal the sentinel and the final byte equals the low 8 bits of the sum of
the first 8 bytes. -/
def validFrame (f : List ℤ) : Prop :=
  f.length = 9 ∧ f.get? 0 = some HEADER ∧ f.get? 1 = some HEADER ∧
    f.get? 8 = some ((f.take 8).sum % 256)

instance (f : List ℤ) : Decidable (validFrame f) := by
  unfold validFrame; infer_instance

/-- Distance decoded from a 9-byte frame, as in `dist = uart[2] + uart[3] * 256`. -/
def distOf (f : List ℤ) : ℤ := f.getD 2 0 + f.getD 3 0 * 256

/-- Run `n` successive loop iterations' LiDAR sections over a byte stream,
collecting the validated frames in order. -/
def runLoop (y : ℚ) : ℕ → List ℤ → List (List ℤ)
  | 0, _ => []
  | n + 1, s =>
    let r := loopLidar y s
    (match r.accepted with
     | some a => [a]
     | none => []) ++ runLoop y n r.rest

/-- The global state of the MPU6050 pipeline (the C globals of `main.cpp`). -/
structure MPUState where
  AccX : ℚ
  AccY : ℚ
  AccZ : ℚ
  GyroX : ℚ
  GyroY : ℚ
  GyroZ : ℚ
  accAngleX : ℚ
  accAngleY : ℚ
  gyroAngleX : ℚ
  gyroAngleY : ℚ
  gyroAngleZ : ℚ
  roll : ℚ
  pitch : ℚ
  yaw : ℚ
  AccErrorX : ℚ
  AccErrorY : ℚ
  GyroErrorX : ℚ
  GyroErrorY : ℚ
  GyroErrorZ : ℚ
  elapsedTime : ℚ
  currentTime : ℚ
  previousTime : ℚ

/-- All C globals are zero-initialized at boot. -/
def initState : MPUState :=
  { AccX := 0, AccY := 0, AccZ := 0, GyroX := 0, GyroY := 0, GyroZ := 0,
    accAngleX := 0, accAngleY := 0,
    gyroAngleX := 0, gyroAngleY := 0, gyroAngleZ := 0,
    roll := 0, pitch := 0, yaw := 0,
    AccErrorX := 0, AccErrorY := 0,
    GyroErrorX := 0, GyroErrorY := 0, GyroErrorZ := 0,
    elapsedTime := 0, currentTime := 0, previousTime := 0 }

/-- A trivial instantiation of the abstracted accelerometer-angle function,
used to build concrete executions. -/
def accAngleZero : ℚ → ℚ → ℚ → ℚ × ℚ := fun _ _ _ => (0, 0)

/-- `readMPU6050()` (`main.cpp` lines 90–134).  `f` abstracts the two
`atan(…)*180/PI` accelerometer-angle expressions; `accRaw` and `gyroRaw` are
the three 16-bit register pairs `(Wire.read() << 8 | Wire.read())` for each
sensor; `t` is the value returned by `millis()` on this call. -/
def readMPU6050 (f : ℚ → ℚ → ℚ → ℚ × ℚ) (accRaw gyroRaw : ℤ × ℤ × ℤ)
    (t : ℕ) (s : MPUState) : MPUState :=
  let AccX : ℚ := (accRaw.1 : ℚ) / 4096
  let AccY : ℚ := (accRaw.2.1 : ℚ) / 4096
  let AccZ : ℚ := (accRaw.2.2 : ℚ) / 4096
  let accAngleX := (f AccX AccY AccZ).1 - s.AccErrorX
  let accAngleY := (f AccX AccY AccZ).2 - s.AccErrorY
  let previousTime := s.currentTime
  let currentTime : ℚ := (t : ℚ)
  let elapsedTime := (currentTime - previousTime) / 1000
  let GyroX := (gyroRaw.1 : ℚ) / 32.8 - s.GyroErrorX
  let GyroY := (gyroRaw.2.1 : ℚ) / 32.8 - s.GyroErrorY
  let GyroZ := (gyroRaw.2.2 : ℚ) / 32.8 - s.GyroErrorZ
  let gyroAngleX := s.gyroAngleX + GyroX * elapsedTime
  let gyroAngleY := s.gyroAngleY + GyroY * elapsedTime
  let gyroAngleZ := s.gyroAngleZ + GyroZ * elapsedTime
  { s with
    AccX := AccX, AccY := AccY, AccZ := AccZ,
    accAngleX := accAngleX, accAngleY := accAngleY,
    previousTime := previousTime, currentTime := currentTime,
    elapsedTime := elapsedTime,
    GyroX := GyroX, GyroY := GyroY, GyroZ := GyroZ,
    gyroAngleX := gyroAngleX, gyroAngleY := gyroAngleY,
    gyroAngleZ := gyroAngleZ,
    roll := 0.96 * gyroAngleX + 0.04 * accAngleX,
    pitch := 0.96 * gyroAngleY + 0.04 * accAngleY,
    yaw := gyroAngleZ }

/-- One pass of the accelerometer calibration loop body
(`calculate_IMU_error`, lines 142–154): read raw registers, scale by 4096,
accumulate the angle expressions into `AccErrorX/Y`. -/
def calibAccStep (f : ℚ → ℚ → ℚ → ℚ × ℚ) (s : MPUState) (r : ℤ × ℤ × ℤ) :
    MPUState :=
  let AccX : ℚ := (r.1 : ℚ) / 4096
  let AccY : ℚ := (r.2.1 : ℚ) / 4096
  let AccZ : ℚ := (r.2.2 : ℚ) / 4096
  { s with
    AccX := AccX, AccY := AccY, AccZ := AccZ,
    AccErrorX := s.AccErrorX + (f AccX AccY AccZ).1,
    AccErrorY := s.AccErrorY + (f AccX AccY AccZ).2 }

/-- One pass of the gyro calibration loop body (lines 161–174): read raw
registers (kept raw in the `GyroX/Y/Z` globals), accumulate `raw / 32.8`
into the `GyroErrorX/Y/Z` sums. -/
def calibGyroStep (s : MPUState) (r : ℤ × ℤ × ℤ) : MPUState :=
  { s with
    GyroX := (r.1 : ℚ), GyroY := (r.2.1 : ℚ), GyroZ := (r.2.2 : ℚ),
    GyroErrorX := s.GyroErrorX + (r.1 : ℚ) / 32.8,
    GyroErrorY := s.GyroErrorY + (r.2.1 : ℚ) / 32.8,
    GyroErrorZ := s.GyroErrorZ + (r.2.2 : ℚ) / 32.8 }

/-- `calculate_IMU_error()` (lines 136–179): 200 accelerometer passes, then
divide the accumulated sums by 200; 200 gyro passes, then divide by 200.
The two sample lists stand for the 200 hardware reads of each phase. -/
def calculate_IMU_error (f : ℚ → ℚ → ℚ → ℚ × ℚ)
    (accSamples gyroSamples : List (ℤ × ℤ × ℤ)) (s : MPUState) : MPUState :=
  let s1 := accSamples.foldl (calibAccStep f) s
  let s2 := { s1 with AccErrorX := s1.AccErrorX / 200,
                      AccErrorY := s1.AccErrorY / 200 }
  let s3 := gyroSamples.foldl calibGyroStep s2
  { s3 with GyroErrorX := s3.GyroErrorX / 200,
            GyroErrorY := s3.GyroErrorY / 200,
            GyroErrorZ := s3.GyroErrorZ / 200 }

/-- One full iteration of `loop()`: `readMPU6050()` then the LiDAR decode
attempt (which prints the global `yaw` just computed). -/
def loopIter (f : ℚ → ℚ → ℚ → ℚ × ℚ) (accRaw gyroRaw : ℤ × ℤ × ℤ) (t : ℕ)
    (s : MPUState) (stream : List ℤ) : MPUState × LidarStep :=
  let s2 := readMPU6050 f accRaw gyroRaw t s
  (s2, loopLidar s2.yaw stream)

/-- The spec's end-to-end example frame: header, header, distance 70,
checksum `(0x59+0x59+70) & 0xFF = 248`. -/
def FRAME70 : List ℤ := [0x59, 0x59, 70, 0, 0, 0, 0, 0, 248]

/-- A valid frame whose decoded distance 1250 exceeds the 1200 bound. -/
def FRAME1250 : List ℤ := [0x59, 0x59, 226, 4, 0, 0, 0, 0, 152]

/-- A valid frame whose decoded distance is 0 (below the `dist > 0` gate). -/
def FRAME0 : List ℤ := [0x59, 0x59, 0, 0, 0, 0, 0, 0, 178]

/-- Gyro calibration sample list whose scaled readings average exactly 3:
80 raw readings of 99 and 120 of 98 give `(19680 / 32.8) / 200 = 3`. -/
def W200 : List (ℤ × ℤ × ℤ) :=
  List.replicate 80 ((0 : ℤ), (0 : ℤ), (99 : ℤ)) ++
    List.replicate 120 ((0 : ℤ), (0 : ℤ), (98 : ℤ))

/-! ## Helper lemmas about the calibration folds -/

theorem calibAcc_foldl_keeps (f : ℚ → ℚ → ℚ → ℚ × ℚ)
    (l : List (ℤ × ℤ × ℤ)) (s : MPUState) :
    (l.foldl (calibAccStep f) s).currentTime = s.currentTime ∧
    (l.foldl (calibAccStep f) s).gyroAngleZ = s.gyroAngleZ ∧
    (l.foldl (calibAccStep f) s).GyroErrorZ = s.GyroErrorZ := by
  induction l generalizing s with
  | nil => exact ⟨rfl, rfl, rfl⟩
  | cons a l ih => exact ih (calibAccStep f s a)

theorem calibGyro_foldl_spec (l : List (ℤ × ℤ × ℤ)) (s : MPUState) :
    (l.foldl calibGyroStep s).GyroErrorZ
      = s.GyroErrorZ + (l.map (fun r => (r.2.2 : ℚ) / 32.8)).sum ∧
    (l.foldl calibGyroStep s).currentTime = s.currentTime ∧
    (l.foldl calibGyroStep s).gyroAngleZ = s.gyroAngleZ := by
  induction l generalizing s with
  | nil => simp
  | cons a l ih =>
    obtain ⟨h1, h2, h3⟩ := ih (calibGyroStep s a)
    refine ⟨?_, h2, h3⟩
    rw [List.foldl_cons, h1, List.map_cons, List.sum_cons]
    show s.GyroErrorZ + (a.2.2 : ℚ) / 32.8 + _ = _
    ring

theorem calculate_IMU_error_keeps (f : ℚ → ℚ → ℚ → ℚ × ℚ)
    (accSamples gyroSamples : List (ℤ × ℤ × ℤ)) (s : MPUState) :
    (calculate_IMU_error f accSamples gyroSamples s).currentTime = s.currentTime ∧
    (calculate_IMU_error f accSamples gyroSamples s).gyroAngleZ = s.gyroAngleZ := by
  unfold calculate_IMU_error
  obtain ⟨ha1, ha2, _⟩ := calibAcc_foldl_keeps f accSamples s
  obtain ⟨_, hg2, hg3⟩ := calibGyro_foldl_spec gyroSamples
    { accSamples.foldl (calibAccStep f) s with
      AccErrorX := (accSamples.foldl (calibAccStep f) s).AccErrorX / 200,
      AccErrorY := (accSamples.foldl (calibAccStep f) s).AccErrorY / 200 }
  exact ⟨hg2.trans ha1, hg3.trans ha2⟩

/-! ## C1: heading normalization -/

/-- C1 counterexample: the code never normalizes the heading into [0, 360).
Integrating a constant corrected rate of +400 deg/s (raw 13120 = 400·32.8,
zero bias) over one second from the boot state yields yaw = 400, not the 40
the claim demands. -/
theorem C1_counterexample :
    (readMPU6050 accAngleZero (0, 0, 0) (0, 0, 13120) 1000 initState).yaw = 400
    ∧ ¬ ((400 : ℚ) < 360) ∧ (400 : ℚ) ≠ 40 := by
  refine ⟨?_, by norm_num, by norm_num⟩
  show (0 : ℚ) + ((13120 : ℚ) / 32.8 - 0) * (((1000 : ℚ) - 0) / 1000) = 400
  norm_num

/-- C1 (amended): `readMPU6050` applies no wrap-around correction at all:
the new yaw is exactly the old integral plus rate·elapsed, for every state
and input; in particular the +400 deg/s, 1 s scenario from boot produces
heading 400 (outside [0, 360)). -/
theorem C1_amended_no_normalization :
    (∀ (f : ℚ → ℚ → ℚ → ℚ × ℚ) (accRaw gyroRaw : ℤ × ℤ × ℤ) (t : ℕ)
        (s : MPUState),
      (readMPU6050 f accRaw gyroRaw t s).yaw
        = s.gyroAngleZ + ((gyroRaw.2.2 : ℚ) / 32.8 - s.GyroErrorZ)
            * (((t : ℚ) - s.currentTime) / 1000))
    ∧ (readMPU6050 accAngleZero (0, 0, 0) (0, 0, 13120) 1000 initState).yaw
        = 400 := by
  refine ⟨fun f accRaw gyroRaw t s => rfl, ?_⟩
  show (0 : ℚ) + ((13120 : ℚ) / 32.8 - 0) * (((1000 : ℚ) - 0) / 1000) = 400
  norm_num

/-! ## C8: reads from an empty byte source -/

/-- C8: the decoder checks `Serial1.available()` only once per iteration.
With exactly the two header bytes buffered (the spec's blocking-risk
scenario) it issues 7 reads against an empty source, and with a single
header byte buffered it issues 1 such read — contradicting the requirement
that availability be checked immediately before every read. -/
theorem C8_reads_empty_source :
    (loopLidar 0 [HEADER, HEADER]).emptyReads = 7
    ∧ (loopLidar 0 [HEADER]).emptyReads = 1 := by
  exact ⟨by decide, by decide⟩

/-! ## C9: calibration bias is never written by the loop -/

/-- C9: one full iteration of `loop()` (gyro update then LiDAR decode)
leaves all three gyro calibration offsets exactly as they were. -/
theorem C9_bias_immutable (f : ℚ → ℚ → ℚ → ℚ × ℚ)
    (accRaw gyroRaw : ℤ × ℤ × ℤ) (t : ℕ) (s : MPUState) (stream : List ℤ) :
    ((loopIter f accRaw gyroRaw t s stream).1).GyroErrorX = s.GyroErrorX
    ∧ ((loopIter f accRaw gyroRaw t s stream).1).GyroErrorY = s.GyroErrorY
    ∧ ((loopIter f accRaw gyroRaw t s stream).1).GyroErrorZ = s.GyroErrorZ :=
  ⟨rfl, rfl, rfl⟩

/-! ## C10: the first elapsed-time value spans boot to first call -/

/-- C10: after startup calibration the stored timestamp is still the
zero-initialized global, so the first `readMPU6050` call computes
`elapsedTime = millis()/1000` — the whole boot-to-first-call interval —
and its integration step multiplies the corrected rate by that interval. -/
theorem C10_first_elapsed_full_boot_interval (f : ℚ → ℚ → ℚ → ℚ × ℚ)
    (accSamples gyroSamples : List (ℤ × ℤ × ℤ))
    (accRaw gyroRaw : ℤ × ℤ × ℤ) (t : ℕ) :
    (readMPU6050 f accRaw gyroRaw t
        (calculate_IMU_error f accSamples gyroSamples initState)).elapsedTime
      = (t : ℚ) / 1000
    ∧ (readMPU6050 f accRaw gyroRaw t
        (calculate_IMU_error f accSamples gyroSamples initState)).previousTime
      = 0
    ∧ (readMPU6050 f accRaw gyroRaw t
        (calculate_IMU_error f accSamples gyroSamples initState)).gyroAngleZ
      = ((gyroRaw.2.2 : ℚ) / 32.8
          - (calculate_IMU_error f accSamples gyroSamples initState).GyroErrorZ)
            * ((t : ℚ) / 1000) := by
  obtain ⟨hct, hgz⟩ :=
    calculate_IMU_error_keeps f accSamples gyroSamples initState
  have hct0 : (calculate_IMU_error f accSamples gyroSamples initState).currentTime
      = 0 := hct
  have hgz0 : (calculate_IMU_error f accSamples gyroSamples initState).gyroAngleZ
      = 0 := hgz
  refine ⟨?_, ?_, ?_⟩
  · show ((t : ℚ) - (calculate_IMU_error f accSamples gyroSamples
        initState).currentTime) / 1000 = (t : ℚ) / 1000
    rw [hct0, sub_zero]
  · exact hct0
  · show (calculate_IMU_error f accSamples gyroSamples initState).gyroAngleZ
        + ((gyroRaw.2.2 : ℚ) / 32.8
            - (calculate_IMU_error f accSamples gyroSamples initState).GyroErrorZ)
          * (((t : ℚ) - (calculate_IMU_error f accSamples gyroSamples
                initState).currentTime) / 1000) = _
    rw [hct0, hgz0, sub_zero, zero_add]

/-! ## C7: bias calibration and subtraction -/

/-- C7: startup calibration stores as bias the mean of the 200 scaled
angular-rate samples (raw/32.8); when those scaled samples average 3 the
stored Z bias is exactly 3.  In every later `readMPU6050` update the bias
is subtracted from the scaled rate, so a reading whose scaled value equals
the stored bias yields a corrected rate of 0. -/
theorem C7_calibration_bias (f : ℚ → ℚ → ℚ → ℚ × ℚ)
    (accSamples gyroSamples : List (ℤ × ℤ × ℤ))
    (h200 : gyroSamples.length = 200)
    (havg : (gyroSamples.map (fun r => (r.2.2 : ℚ) / 32.8)).sum / 200 = 3) :
    (calculate_IMU_error f accSamples gyroSamples initState).GyroErrorZ = 3
    ∧ ∀ (g : ℚ → ℚ → ℚ → ℚ × ℚ) (accRaw gyroRaw : ℤ × ℤ × ℤ) (t : ℕ)
        (s : MPUState),
      (gyroRaw.2.2 : ℚ) / 32.8 = s.GyroErrorZ →
      (readMPU6050 g accRaw gyroRaw t s).GyroZ = 0 := by
  constructor
  · obtain ⟨_, _, hkeep⟩ := calibAcc_foldl_keeps f accSamples initState
    obtain ⟨hsum, _, _⟩ := calibGyro_foldl_spec gyroSamples
      { accSamples.foldl (calibAccStep f) initState with
        AccErrorX := (accSamples.foldl (calibAccStep f) initState).AccErrorX / 200,
        AccErrorY := (accSamples.foldl (calibAccStep f) initState).AccErrorY / 200 }
    show (gyroSamples.foldl calibGyroStep _).GyroErrorZ / 200 = 3
    rw [hsum]
    show ((accSamples.foldl (calibAccStep f) initState).GyroErrorZ + _) / 200 = 3
    rw [hkeep]
    show ((0 : ℚ) + _) / 200 = 3
    rw [zero_add]
    exact havg
  · intro g accRaw gyroRaw t s h
    show (gyroRaw.2.2 : ℚ) / 32.8 - s.GyroErrorZ = 0
    rw [h, sub_self]

/-- Witness for C7 at a concrete sample list: 80 raw readings of 99 and 120
of 98 make the scaled samples average exactly 3, the computed Z bias is 3,
and a reading with scaled value equal to a stored bias of 30 (raw 984)
corrects to 0. -/
theorem C7_witness :
    W200.length = 200
    ∧ (W200.map (fun r => (r.2.2 : ℚ) / 32.8)).sum / 200 = 3
    ∧ (calculate_IMU_error accAngleZero [] W200 initState).GyroErrorZ = 3
    ∧ (readMPU6050 accAngleZero (0, 0, 0) (0, 0, 984) 5
        { initState with GyroErrorZ := 30 }).GyroZ = 0 := by
  have hlen : W200.length = 200 := by
    rw [W200, List.length_append, List.length_replicate, List.length_replicate]
  have havg : (W200.map (fun r => (r.2.2 : ℚ) / 32.8)).sum / 200 = 3 := by
    rw [W200]
    rw [List.map_append, List.map_replicate, List.map_replicate,
      List.sum_append, List.sum_replicate, List.sum_replicate]
    norm_num
  have h := C7_calibration_bias accAngleZero [] W200 hlen havg
  exact ⟨hlen, havg, h.1,
    h.2 accAngleZero (0, 0, 0) (0, 0, 984) 5
      { initState with GyroErrorZ := 30 } (by norm_num)⟩

/-! ## Decoder lemmas -/

theorem loopLidar_accept_sound (y : ℚ) (s : List ℤ) (a : List ℤ)
    (h : (loopLidar y s).accepted = some a) : validFrame a := by
  match s with
  | [] => simp [loopLidar] at h
  | b0 :: s1 =>
    simp only [loopLidar] at h
    split_ifs at h with h0 h1 h2 hd
    all_goals
      simp only [Option.some.injEq] at h
    all_goals try subst h
    all_goals try (
      refine ⟨rfl, rfl, rfl, ?_⟩
      simp only [List.get?_cons_succ, List.get?_cons_zero, List.take_succ_cons,
        List.take_zero, List.sum_cons, List.sum_nil, Option.some.injEq]
      rw [h2]
      congr 1
      ring)

theorem loopLidar_on_valid (y : ℚ) (frame : List ℤ) (hv : validFrame frame) :
    (loopLidar y frame).accepted = some frame ∧ (loopLidar y frame).rest = [] := by
  obtain ⟨h9, hh0, hh1, hck⟩ := hv
  rcases frame with _ | ⟨b0, frame⟩; · simp at h9
  rcases frame with _ | ⟨b1, frame⟩; · simp at h9
  rcases frame with _ | ⟨b2, frame⟩; · simp at h9
  rcases frame with _ | ⟨b3, frame⟩; · simp at h9
  rcases frame with _ | ⟨b4, frame⟩; · simp at h9
  rcases frame with _ | ⟨b5, frame⟩; · simp at h9
  rcases frame with _ | ⟨b6, frame⟩; · simp at h9
  rcases frame with _ | ⟨b7, frame⟩; · simp at h9
  rcases frame with _ | ⟨b8, frame⟩; · simp at h9
  rcases frame with _ | ⟨b9, frame⟩
  · simp only [List.get?_cons_zero, Option.some.injEq] at hh0
    simp only [List.get?_cons_succ, List.get?_cons_zero, Option.some.injEq] at hh1
    subst hh0
    subst hh1
    have hb8 : b8 = (HEADER + HEADER + b2 + b3 + b4 + b5 + b6 + b7) % 256 := by
      simp only [List.get?_cons_succ, List.get?_cons_zero, List.take_succ_cons,
        List.take_zero, List.sum_cons, List.sum_nil, Option.some.injEq] at hck
      rw [hck]
      congr 1
      ring
    simp only [loopLidar, serialReadByte, eq_self_iff_true, if_true]
    rw [if_pos hb8]
    exact ⟨rfl, rfl⟩
  · simp at h9

theorem loopLidar_emitted_none (y : ℚ) (st : List ℤ)
    (h : (loopLidar y st).accepted = none) : (loopLidar y st).emitted = none := by
  match st with
  | [] => rfl
  | b0 :: s1 =>
    simp only [loopLidar] at h ⊢
    split_ifs at h ⊢ <;> simp_all

theorem loopLidar_emitted_eq (y : ℚ) (st a : List ℤ)
    (h : (loopLidar y st).accepted = some a) :
    (loopLidar y st).emitted
      = if 0 < distOf a ∧ distOf a < 1200 then
          some [("distance", (distOf a : ℚ)), ("yaw", y)]
        else none := by
  match st with
  | [] => simp [loopLidar] at h
  | b0 :: s1 =>
    simp only [loopLidar] at h ⊢
    split_ifs at h with h0 h1 h2 hd
    all_goals simp only [Option.some.injEq] at h
    all_goals subst h
    all_goals (
      simp only [distOf, List.getD_cons_succ, List.getD_cons_zero]
      rw [if_pos h0, if_pos h1, if_pos h2])

theorem runLoop_nil (y : ℚ) (n : ℕ) : runLoop y n [] = [] := by
  induction n with
  | zero => rfl
  | succ n ih => simpa [runLoop, loopLidar] using ih

/-! ## C2: frame acceptance is exactly header + checksum validity -/

/-- C2: a 9-byte frame presented to the decoder is accepted iff its first
two bytes are the sentinel 0x59 and its ninth byte equals the low 8 bits of
the sum of the first eight. -/
theorem C2_checksum_accept_iff (y : ℚ) (frame : List ℤ)
    (h9 : frame.length = 9) (hbytes : ∀ b ∈ frame, 0 ≤ b ∧ b < 256) :
    ((loopLidar y frame).accepted.isSome ↔ validFrame frame) := by
  constructor
  · intro h
    rcases frame with _ | ⟨b0, frame⟩; · simp at h9
    rcases frame with _ | ⟨b1, frame⟩; · simp at h9
    rcases frame with _ | ⟨b2, frame⟩; · simp at h9
    rcases frame with _ | ⟨b3, frame⟩; · simp at h9
    rcases frame with _ | ⟨b4, frame⟩; · simp at h9
    rcases frame with _ | ⟨b5, frame⟩; · simp at h9
    rcases frame with _ | ⟨b6, frame⟩; · simp at h9
    rcases frame with _ | ⟨b7, frame⟩; · simp at h9
    rcases frame with _ | ⟨b8, frame⟩; · simp at h9
    rcases frame with _ | ⟨b9, frame⟩
    · simp only [loopLidar, serialReadByte] at h
      split_ifs at h with h0 h1 h2
      all_goals try simp at h
      all_goals (
        subst h0
        subst h1
        refine ⟨rfl, rfl, rfl, ?_⟩
        simp only [List.get?_cons_succ, List.get?_cons_zero, List.take_succ_cons,
          List.take_zero, List.sum_cons, List.sum_nil, Option.some.injEq]
        rw [h2]
        congr 1
        ring)
    · simp at h9
  · intro hv
    rw [(loopLidar_on_valid y frame hv).1]
    rfl

/-- Witness for C2 at the spec's end-to-end frame (distance 70,
checksum 248): both sides of the equivalence hold. -/
theorem C2_witness :
    FRAME70.length = 9 ∧ (∀ b ∈ FRAME70, 0 ≤ b ∧ b < 256)
    ∧ ((loopLidar 0 FRAME70).accepted.isSome ↔ validFrame FRAME70) :=
  ⟨by decide, by decide,
    C2_checksum_accept_iff 0 FRAME70 (by decide) (by decide)⟩

/-! ## C3: no clamping — out-of-range distances are dropped, not clamped -/

/-- C3 counterexample: the valid frame with decoded distance 1250 (above
the 1200 bound) is accepted, but the code emits nothing at all — there is
no clamped distance and no objectStatus "None" record, contradicting the
claimed clamp-to-ceiling behaviour. -/
theorem C3_counterexample :
    (loopLidar 0 FRAME1250).accepted = some FRAME1250
    ∧ distOf FRAME1250 = 1250 ∧ (1200 : ℤ) < 1250
    ∧ (loopLidar 0 FRAME1250).emitted = none :=
  ⟨by decide, by decide, by decide, by decide⟩

/-- C3 (amended): for every validated packet the decoded distance is
byte2 + byte3·256, and the record (which carries the raw distance and yaw,
never a clamped value or an objectStatus) is emitted iff that distance lies
strictly between 0 and 1200; outside this range nothing is reported. -/
theorem C3_amended_distance_gate (y : ℚ) (st a : List ℤ)
    (h : (loopLidar y st).accepted = some a) :
    distOf a = a.getD 2 0 + a.getD 3 0 * 256
    ∧ (loopLidar y st).emitted
        = if 0 < distOf a ∧ distOf a < 1200 then
            some [("distance", (distOf a : ℚ)), ("yaw", y)]
          else none :=
  ⟨rfl, loopLidar_emitted_eq y st a h⟩

/-- Witness for C3 at the spec's distance-70 frame: the packet validates
and the emitted record carries the raw distance 70. -/
theorem C3_witness :
    (loopLidar 0 FRAME70).accepted = some FRAME70
    ∧ (loopLidar 0 FRAME70).emitted
        = some [("distance", (70 : ℚ)), ("yaw", 0)] := by
  refine ⟨by decide, ?_⟩
  rw [(C3_amended_distance_gate 0 FRAME70 FRAME70 (by decide)).2]
  decide

/-! ## C4: emission per validated packet is gated by the distance filter -/

/-- C4 counterexample: the valid frame with decoded distance 0 is
successfully validated yet produces no record, so emission is not
"exactly once per successfully validated RangePacket". -/
theorem C4_counterexample :
    (loopLidar 0 FRAME0).accepted = some FRAME0
    ∧ (loopLidar 0 FRAME0).emitted = none :=
  ⟨by decide, by decide⟩

/-- C4 (amended): a record is emitted only when a packet validates in the
same iteration (never for invalid or partial packets, and never from an
empty stream, hence never on a timer); for a validated packet it is
emitted iff the decoded distance lies strictly between 0 and 1200. -/
theorem C4_amended_emission (y : ℚ) (st : List ℤ) :
    ((loopLidar y st).emitted.isSome → (loopLidar y st).accepted.isSome)
    ∧ (∀ a, (loopLidar y st).accepted = some a →
        ((loopLidar y st).emitted.isSome ↔ 0 < distOf a ∧ distOf a < 1200))
    ∧ (loopLidar y []).emitted = none := by
  refine ⟨?_, ?_, rfl⟩
  · intro h
    cases hacc : (loopLidar y st).accepted with
    | none => rw [loopLidar_emitted_none y st hacc] at h; simp at h
    | some a => simp
  · intro a ha
    rw [loopLidar_emitted_eq y st a ha]
    split_ifs with hd <;> simp [hd]

/-- Witness for C4 at the distance-70 frame: validated and emitted. -/
theorem C4_witness :
    (loopLidar 0 FRAME70).accepted = some FRAME70
    ∧ (loopLidar 0 FRAME70).emitted.isSome := by
  refine ⟨by decide, ?_⟩
  exact ((C4_amended_emission 0 FRAME70).2.1 FRAME70 (by decide)).mpr (by decide)

/-! ## C5: the emitted record has no direction field -/

/-- C5 counterexample: a record emitted for a valid frame contains exactly
the fields distance and yaw; looking up a "direction" key finds nothing,
so no emitted FusionRecord carries the claimed direction classification. -/
theorem C5_counterexample :
    (loopLidar 0 FRAME70).emitted = some [("distance", (70 : ℚ)), ("yaw", 0)]
    ∧ List.lookup "direction" [("distance", (70 : ℚ)), ("yaw", (0 : ℚ))] = none :=
  ⟨by decide, by decide⟩

/-- C5 (amended): every emitted record consists of exactly the keys
distance and yaw in that order, and contains no "direction" field — the
code computes no direction, threshold or motion classification at all. -/
theorem C5_amended_no_direction_field (y : ℚ) (st : List ℤ)
    (em : List (String × ℚ)) (h : (loopLidar y st).emitted = some em) :
    em.map Prod.fst = ["distance", "yaw"]
    ∧ List.lookup "direction" em = none := by
  cases hacc : (loopLidar y st).accepted with
  | none =>
    rw [loopLidar_emitted_none y st hacc] at h
    exact absurd h (by simp)
  | some a =>
    rw [loopLidar_emitted_eq y st a hacc] at h
    split_ifs at h with hd
    · simp only [Option.some.injEq] at h
      subst h
      exact ⟨rfl, rfl⟩

/-- Witness for C5: the record emitted for the distance-70 frame. -/
theorem C5_witness :
    (loopLidar 0 FRAME70).emitted = some [("distance", (70 : ℚ)), ("yaw", 0)]
    ∧ List.map Prod.fst [("distance", (70 : ℚ)), ("yaw", (0 : ℚ))]
        = ["distance", "yaw"]
    ∧ List.lookup "direction" [("distance", (70 : ℚ)), ("yaw", (0 : ℚ))] = none := by
  have h : (loopLidar 0 FRAME70).emitted
      = some [("distance", (70 : ℚ)), ("yaw", 0)] := by decide
  obtain ⟨h1, h2⟩ := C5_amended_no_direction_field 0 FRAME70
    [("distance", (70 : ℚ)), ("yaw", 0)] h
  exact ⟨h, h1, h2⟩

/-! ## C6: framing and resynchronization -/

/-- C6: a packet is accepted only when it starts with two sentinel bytes
and passes the checksum (every frame any run ever accepts is valid — zero
false accepts), and a stream of one non-sentinel noise byte followed by a
valid 9-byte frame yields exactly that one accepted packet: the noise byte
is discarded by the first iteration and the frame is accepted by the next. -/
theorem C6_framing_resync (y : ℚ) (noise : ℤ) (frame : List ℤ) (n : ℕ)
    (hn0 : 0 ≤ noise) (hn1 : noise < 256) (hnh : noise ≠ HEADER)
    (hv : validFrame frame) :
    runLoop y (n + 2) (noise :: frame) = [frame]
    ∧ ∀ (m : ℕ) (s a : List ℤ), a ∈ runLoop y m s → validFrame a := by
  constructor
  · have h1 : loopLidar y (noise :: frame)
        = { accepted := none, emitted := none, rest := frame, emptyReads := 0 } := by
      simp only [loopLidar]
      exact if_neg hnh
    obtain ⟨ha, hr⟩ := loopLidar_on_valid y frame hv
    simp only [runLoop, h1, ha, hr, runLoop_nil, List.nil_append, List.append_nil]
  · intro m
    induction m with
    | zero => intro s a ha; simp [runLoop] at ha
    | succ m ih =>
      intro s a ha
      simp only [runLoop, List.mem_append] at ha
      rcases ha with h | h
      · cases hacc : (loopLidar y s).accepted with
        | none => rw [hacc] at h; simp at h
        | some b =>
          rw [hacc] at h
          simp only [List.mem_singleton] at h
          subst h
          exact loopLidar_accept_sound y s a hacc
      · exact ih (loopLidar y s).rest a h

/-- Witness for C6: noise byte 0x41 followed by the distance-70 frame is
fully consumed in two iterations, yielding exactly one accepted packet. -/
theorem C6_witness :
    (0 : ℤ) ≤ 0x41 ∧ (0x41 : ℤ) < 256 ∧ (0x41 : ℤ) ≠ HEADER
    ∧ validFrame FRAME70
    ∧ runLoop 0 2 (0x41 :: FRAME70) = [FRAME70] :=
  ⟨by decide, by decide, by decide, by decide,
    (C6_framing_resync 0 0x41 FRAME70 0 (by decide) (by decide) (by decide)
      (by decide)).1⟩
